import Mathlib

/-
  Verification of the qwen-analyzer RAG pipeline (src/rag.ts, src/personalization.ts)
  against its natural-language specification.

  Shallow embedding conventions:
  * JS strings are modelled as `List Char` (named `Str`); record fields keep `String`.
  * JS numbers used for vector arithmetic are modelled as `ℚ`; `Math.sqrt` is an
    external primitive and is passed in as an explicit function parameter.
  * External collaborators (the Ollama embedding endpoint, `crypto` md5,
    `JSON.parse` of the corpus file) are passed in as function parameters.
  * Fallible operations return `Except`.
-/

namespace QwenAnalyzer

/-- JS strings as character lists. -/
abbrev Str := List Char

/-- Coerce a Lean string literal to the `Str` model. -/
def S (s : String) : Str := s.data

/-! ### JS character classes (ECMA-262 semantics) -/

/-- Characters matched by JS `\s` (WhiteSpace ∪ LineTerminator). -/
def isSpaceJS (c : Char) : Bool :=
  c = ' ' || c = '\t' || c = '\n' || c.toNat = 11 || c.toNat = 12 || c = '\r' ||
  c.toNat = 0xA0 || c.toNat = 0x1680 || (0x2000 ≤ c.toNat && c.toNat ≤ 0x200A) ||
  c.toNat = 0x2028 || c.toNat = 0x2029 || c.toNat = 0x202F || c.toNat = 0x205F ||
  c.toNat = 0x3000 || c.toNat = 0xFEFF

/-- JS LineTerminator characters (which `.` in a regex does not match). -/
def isLineTerm (c : Char) : Bool :=
  c = '\n' || c = '\r' || c.toNat = 0x2028 || c.toNat = 0x2029

/-- Word characters for JS `\b` / `\w` (ASCII only; Cyrillic letters are NOT
    word characters in ECMAScript regular expressions). -/
def isWordChar (c : Char) : Bool :=
  ('a' ≤ c && c ≤ 'z') || ('A' ≤ c && c ≤ 'Z') || ('0' ≤ c && c ≤ '9') || c = '_'

/-- `String.prototype.toLowerCase` restricted to the scripts this program uses
    (ASCII and Cyrillic); all other characters are left unchanged. -/
def jsToLower (c : Char) : Char :=
  if 'A' ≤ c ∧ c ≤ 'Z' then Char.ofNat (c.toNat + 32)
  else if Char.ofNat 0x410 ≤ c ∧ c ≤ Char.ofNat 0x42F then Char.ofNat (c.toNat + 32)
  else if c = Char.ofNat 0x401 then Char.ofNat 0x451
  else c

/-- Case canonicalization performed by a `/i` regex flag, over the scripts this
    program uses (ASCII and Cyrillic): fold both operands to lower case. -/
def jsFoldCase (c : Char) : Char := jsToLower c

/-- `toLowerCase` on whole strings (used by `isRelevantToUser`). -/
def lowerStr (s : String) : String := ⟨s.data.map jsToLower⟩

/-! ### JS string operations used by `askQuestion` -/

/-- Left part of `String.prototype.trim`. -/
def jsTrimLeft (s : Str) : Str := s.dropWhile isSpaceJS

/-- Right part of `String.prototype.trim`. -/
def jsTrimRight (s : Str) : Str := (s.reverse.dropWhile isSpaceJS).reverse

/-- `String.prototype.trim`. -/
def jsTrim (s : Str) : Str := jsTrimRight (jsTrimLeft s)

/-- Punctuation stripped by `replace(/[!?.,:;()"'`]/g, "")` (the last three
    entries are `"`,`'` and the backquote). -/
def punctList : Str :=
  ['!', '?', '.', ',', ':', ';', '(', ')', Char.ofNat 34, Char.ofNat 39, Char.ofNat 96]

/-- `replace(/[!?.,:;()"'`]/g, "")`. -/
def stripPunct (s : Str) : Str := s.filter (fun c => !(punctList.contains c))

/-- Helper for `collapseWs`: the flag records whether the previous character was
    part of a whitespace run already emitted as a single space. -/
def collapseWsAux : Bool → Str → Str
  | _, [] => []
  | prevWs, c :: rest =>
    if isSpaceJS c then
      if prevWs then collapseWsAux true rest else ' ' :: collapseWsAux true rest
    else c :: collapseWsAux false rest

/-- `replace(/\s+/g, " ")`: collapse every whitespace run to a single space. -/
def collapseWs (s : Str) : Str := collapseWsAux false s

/-- Question normalization performed at the top of `RAGSystem.askQuestion`:
    `raw.trim().toLowerCase().replace(/[!?.,:;()"'`]/g, "").replace(/\s+/g, " ")`. -/
def normalize (question : Str) : Str :=
  collapseWs (stripPunct ((jsTrim question).map jsToLower))

/-! ### Regex matchers

The three name regexes of `askQuestion` are embedded literally, including the
ECMAScript `\b` assertions (whose word characters are ASCII-only). The
`/i`-flagged personal and statistical regexes are alternations of literal runs
separated by `.*`; they are embedded by a matcher for such chains. -/

/-- Consume a literal from the front of the input, if it is there. -/
def dropLit : Str → Str → Option Str
  | [], s => some s
  | _ :: _, [] => none
  | c :: w, d :: s => if c = d then dropLit w s else none

/-- All remainders obtainable by consuming `\s+` (one or more leading
    whitespace characters). -/
def wsRems : Str → List Str
  | [] => []
  | c :: rest => if isSpaceJS c then rest :: wsRems rest else []

/-- Whether an optional character is a word character (absent = not). -/
def wordOpt : Option Char → Bool
  | none => false
  | some c => isWordChar c

/-- JS `\b` at a position: the char before (`prev`) and the char after
    (the head of the rest) disagree on word-char-ness. -/
def boundaryHere (prev : Option Char) (s : Str) : Bool :=
  wordOpt prev != wordOpt s.head?

/-- Scan every position of the input, tracking the previous character, and
    test a position predicate there. -/
def scanPrev (f : Option Char → Str → Bool) : Option Char → Str → Bool
  | prev, [] => f prev []
  | prev, c :: rest => f prev (c :: rest) || scanPrev f (some c) rest

/-- Tail `меня\s+зовут\b` shared by the two branches of the first name regex. -/
def nameTail1 (s : Str) : Bool :=
  match dropLit (S "меня") s with
  | none => false
  | some r =>
    (wsRems r).any fun r2 =>
      match dropLit (S "зовут") r2 with
      | none => false
      | some r3 => boundaryHere (some 'т') r3

/-- Match of `/\b(как\s+)?меня\s+зовут\b/` at one position. -/
def namePat1Here (prev : Option Char) (s : Str) : Bool :=
  boundaryHere prev s &&
    (nameTail1 s ||
      match dropLit (S "как") s with
      | none => false
      | some r => (wsRems r).any nameTail1)

/-- Match of `/\bмо[её]\s+имя\b/` at one position. -/
def namePat2Here (prev : Option Char) (s : Str) : Bool :=
  boundaryHere prev s &&
    match dropLit (S "мо") s with
    | none => false
    | some r =>
      match r with
      | [] => false
      | c :: r1 =>
        (c = 'е' || c = 'ё') &&
          (wsRems r1).any fun r2 =>
            match dropLit (S "имя") r2 with
            | none => false
            | some r3 => boundaryHere (some 'я') r3

/-- Match of `/\bимя\s+профил(я|е)\b/` at one position. -/
def namePat3Here (prev : Option Char) (s : Str) : Bool :=
  boundaryHere prev s &&
    match dropLit (S "имя") s with
    | none => false
    | some r =>
      (wsRems r).any fun r2 =>
        match dropLit (S "профил") r2 with
        | none => false
        | some r3 =>
          match r3 with
          | [] => false
          | c :: r4 => (c = 'я' || c = 'е') && boundaryHere (some c) r4

/-- `isNameQuery` of `askQuestion`: the three name regexes tested against the
    normalized question. -/
def isNameQuery (q : Str) : Bool :=
  scanPrev namePat1Here none q || scanPrev namePat2Here none q ||
    scanPrev namePat3Here none q

/-- Search for a match of `next` after consuming `.*` (any run of
    non-line-terminator characters). -/
def gapSearch (next : Str → Bool) : Str → Bool
  | [] => next []
  | c :: rest => next (c :: rest) || (!isLineTerm c && gapSearch next rest)

/-- Match a chain `w₁.*w₂.*…*wₙ` whose first literal starts exactly at the
    current position; the `.*` gaps may not cross a line terminator. -/
def chainFrom : List Str → Str → Bool
  | [], _ => true
  | [w], s => (dropLit w s).isSome
  | w :: ws, s =>
    match dropLit w s with
    | none => false
    | some r => gapSearch (chainFrom ws) r

/-- `regex.test`: the chain may match starting at any position. -/
def testChain (ws : List Str) : Str → Bool
  | [] => chainFrom ws []
  | c :: rest => chainFrom ws (c :: rest) || testChain ws rest

/-- `isPersonalQuery` of `askQuestion`: the `/i` regex
    `расскажи.*обо мне|кто я|что.*знаешь.*обо мне|мой профиль|моя информация|какое.*имя.*пользовател|какое.*имя.*профил|как.*меня.*зовут|моё имя|мое имя`
    tested against the raw question. -/
def isPersonalQuery (question : Str) : Bool :=
  let f := question.map jsFoldCase
  testChain [S "расскажи", S "обо мне"] f || testChain [S "кто я"] f ||
    testChain [S "что", S "знаешь", S "обо мне"] f ||
    testChain [S "мой профиль"] f || testChain [S "моя информация"] f ||
    testChain [S "какое", S "имя", S "пользовател"] f ||
    testChain [S "какое", S "имя", S "профил"] f ||
    testChain [S "как", S "меня", S "зовут"] f ||
    testChain [S "моё имя"] f || testChain [S "мое имя"] f

/-- `isStatisticalQuery` of `askQuestion`: the `/i` regex
    `сколько|какая.*чаще|какой.*больше|какая.*самая|топ|статистика`
    tested against the raw question. -/
def isStatisticalQuery (question : Str) : Bool :=
  let f := question.map jsFoldCase
  testChain [S "сколько"] f || testChain [S "какая", S "чаще"] f ||
    testChain [S "какой", S "больше"] f || testChain [S "какая", S "самая"] f ||
    testChain [S "топ"] f || testChain [S "статистика"] f

/-! ### Data model (src/rag.ts, src/personalization.ts interfaces) -/

/-- One log record of the corpus (`ErrorLog` in src/rag.ts). -/
structure ErrorLog where
  timestamp : String
  level : String
  service : String
  error_type : String
  message : String
  user_id : Option String
  request_id : String
  stack_trace : String
  metadata : List (String × String)
deriving DecidableEq

/-- A log record together with its embedding vector and the embedded text
    (`EmbeddedLog` in src/rag.ts). -/
structure EmbeddedLog where
  log : ErrorLog
  embedding : List ℚ
  text : Str
deriving DecidableEq

/-- Persisted cache payload (`EmbeddingCache` in src/rag.ts). -/
structure EmbeddingCache where
  fileHash : String
  embeddedLogs : List EmbeddedLog
  createdAt : String
deriving DecidableEq

/-- `UserProfile.preferences` (src/personalization.ts). -/
structure Preferences where
  answerStyle : String
  includeRecommendations : Bool
  technicalLevel : String
  useEmoji : Bool
deriving DecidableEq

/-- `UserProfile.responsibilities` (src/personalization.ts). -/
structure Responsibilities where
  services : List String
  criticalErrors : List String
deriving DecidableEq

/-- `UserProfile.workingHours` (src/personalization.ts). -/
structure WorkingHours where
  start : String
  «end» : String
deriving DecidableEq

/-- A validated user profile (`UserProfile` in src/personalization.ts). -/
structure UserProfile where
  name : String
  role : String
  experience : String
  timezone : String
  preferences : Preferences
  responsibilities : Responsibilities
  workingHours : WorkingHours
deriving DecidableEq

/-! ### PersonalizationManager (src/personalization.ts) -/

/-- `PersonalizationManager.isRelevantToUser`: case-insensitive exact match of
    the service against the responsibility services, or of the error type
    against the critical errors. -/
def isRelevantToUser (p : UserProfile) (serviceName errorType : String) : Bool :=
  let isResponsibleService :=
    p.responsibilities.services.any fun service =>
      lowerStr service == lowerStr serviceName
  let isCriticalError :=
    p.responsibilities.criticalErrors.any fun error =>
      lowerStr error == lowerStr errorType
  isResponsibleService || isCriticalError

/-- `PersonalizationManager.getUserContext`. -/
def getUserContext (p : UserProfile) : Str :=
  let servicesStr :=
    if p.responsibilities.services.length > 0 then
      String.intercalate ", " p.responsibilities.services
    else "не указано"
  let errorsStr :=
    if p.responsibilities.criticalErrors.length > 0 then
      String.intercalate ", " p.responsibilities.criticalErrors
    else "не указано"
  S "Пользователь: " ++ S p.name ++ S ", " ++ S p.role ++ S " (" ++
    S p.experience ++ S ")\nОтветственность: " ++ S servicesStr ++
    S "\nКритичные ошибки: " ++ S errorsStr

/-! ### Profile loading and validation (src/personalization.ts)

`JSON.parse` results are modelled by a generic JSON value type; the file read
and parse steps are external and appear as a `LoadOutcome`. -/

/-- A parsed JSON value. -/
inductive JValue where
  | null
  | bool (b : Bool)
  | num (n : ℚ)
  | str (s : String)
  | arr (elems : List JValue)
  | obj (fields : List (String × JValue))

/-- JS falsiness of a parsed JSON value (`!profile`). -/
def JValue.isFalsy : JValue → Bool
  | .null => true
  | .bool b => !b
  | .num n => n == 0
  | .str s => s == ""
  | _ => false

/-- Whether `typeof v === "object"` holds for a parsed JSON value
    (objects, arrays and `null`). -/
def JValue.isObjectType : JValue → Bool
  | .obj _ => true
  | .arr _ => true
  | .null => true
  | _ => false

/-- Whether the value is an array (`Array.isArray`). -/
def JValue.isArr : JValue → Bool
  | .arr _ => true
  | _ => false

/-- The JS `in` operator on a parsed JSON value (own enumerable keys; arrays
    expose their indices and `length`). -/
def JValue.hasKey : JValue → String → Bool
  | .obj fields, k => fields.any (·.1 == k)
  | .arr elems, k =>
    k == "length" ||
      (match k.toNat? with
       | some i => i < elems.length
       | none => false)
  | _, _ => false

/-- Property access `v[k]` on a parsed JSON value; `none` models `undefined`.
    For duplicate keys `JSON.parse` keeps the last occurrence. -/
def JValue.getField : JValue → String → Option JValue
  | .obj fields, k => ((fields.filter (·.1 == k)).map (·.2)).getLast?
  | .arr elems, k =>
    if k == "length" then some (.num elems.length)
    else
      match k.toNat? with
      | some i => elems.get? i
      | none => none
  | _, _ => none

/-- Required top-level fields checked by `validateProfile`. -/
def requiredFields : List String :=
  ["name", "role", "experience", "timezone", "preferences", "responsibilities",
   "workingHours"]

/-- Whether a sub-value passes `!x || typeof x !== "object"` (the check applied
    to `preferences` and `responsibilities`); `none` models `undefined`. -/
def badObjectField : Option JValue → Bool
  | none => true
  | some v => v.isFalsy || !v.isObjectType

/-- `PersonalizationManager.validateProfile`: structural validation; `.error`
    carries the thrown message. -/
def validateProfile (profile : JValue) : Except String Unit :=
  if profile.isFalsy || !profile.isObjectType then
    .error "Profile must be an object"
  else
    match requiredFields.find? (fun field => !profile.hasKey field) with
    | some field => .error ("Missing required field: " ++ field)
    | none =>
      if badObjectField (profile.getField "preferences") then
        .error "Invalid preferences structure"
      else if badObjectField (profile.getField "responsibilities") then
        .error "Invalid responsibilities structure"
      else
        let resp := (profile.getField "responsibilities").getD .null
        if !((resp.getField "services").getD .null).isArr then
          .error "responsibilities.services must be an array"
        else if !((resp.getField "criticalErrors").getD .null).isArr then
          .error "responsibilities.criticalErrors must be an array"
        else .ok ()

/-- Outcome of the external read + `JSON.parse` steps of `loadProfile`. -/
inductive LoadOutcome where
  | fileNotFound
  | parseError (msg : String)
  | readError (msg : String)
  | parsed (j : JValue)

/-- `PersonalizationManager.loadProfile` as a transition on the manager's
    stored profile (`this.profile`): returns the call's result and the new
    stored profile. On any thrown error the assignment `this.profile = ...` is
    never reached, so the stored profile stays as it was. -/
def loadProfile (current : Option JValue) (outcome : LoadOutcome)
    (profilePath : String) : Except String Unit × Option JValue :=
  match outcome with
  | .fileNotFound => (.error ("Profile file not found: " ++ profilePath), current)
  | .parseError msg => (.error ("Invalid JSON in profile file: " ++ msg), current)
  | .readError msg => (.error ("Failed to load profile: " ++ msg), current)
  | .parsed j =>
    match validateProfile j with
    | .error msg => (.error ("Failed to load profile: " ++ msg), current)
    | .ok _ => (.ok (), some j)

/-- `PersonalizationManager.getProfile`. -/
def getProfile (current : Option JValue) : Option JValue := current

/-! ### RAGSystem (src/rag.ts)

The Ollama embedding endpoint appears as a function parameter (`embed`), and
`Math.sqrt` likewise (`sqrt` : applied to the sums of squares when computing
vector magnitudes). Vector components are modelled as `ℚ`. -/

/-- `JSON.stringify` of a string-keyed string map (compact form, as used in
    `logToText`). -/
def jsonStringify (m : List (String × String)) : Str :=
  S "\x7b" ++
    List.intercalate (S ",")
      (m.map fun kv => S "\x22" ++ S kv.1 ++ S "\x22:\x22" ++ S kv.2 ++ S "\x22") ++
    S "\x7d"

/-- `JSON.stringify(·, null, 2)` of a string-keyed string map (pretty form, as
    used in the context rendering of `askQuestion`). -/
def jsonStringifyPretty (m : List (String × String)) : Str :=
  match m with
  | [] => S "\x7b\x7d"
  | _ =>
    S "\x7b\n" ++
      List.intercalate (S ",\n")
        (m.map fun kv => S "  \x22" ++ S kv.1 ++ S "\x22: \x22" ++ S kv.2 ++ S "\x22") ++
      S "\n\x7d"

/-- `RAGSystem.logToText`: the canonical text projection that gets embedded. -/
def logToText (log : ErrorLog) : Str :=
  jsTrim (S "\nService: " ++ S log.service ++ S "\nError Type: " ++
    S log.error_type ++ S "\nMessage: " ++ S log.message ++ S "\nTimestamp: " ++
    S log.timestamp ++ S "\nMetadata: " ++ jsonStringify log.metadata ++ S "\n    ")

/-- `a.reduce((sum, val, i) => sum + val * b[i], 0)` for same-length vectors. -/
def dotProd (a b : List ℚ) : ℚ := (List.zipWith (· * ·) a b).sum

/-- `v.reduce((sum, val) => sum + val * val, 0)`: the squared magnitude. -/
def sumSq (a : List ℚ) : ℚ := (a.map fun v => v * v).sum

/-- `RAGSystem.cosineSimilarity`. Note there is no guard for zero-magnitude
    vectors: the division is performed unconditionally (in JS, a zero
    denominator yields `NaN`/`Infinity`; the claim about this case is stated
    directly on the numerator `dotProd` and denominator below). -/
def cosineSimilarity (sqrt : ℚ → ℚ) (a b : List ℚ) : ℚ :=
  let dotProduct := dotProd a b
  let magnitudeA := sqrt (sumSq a)
  let magnitudeB := sqrt (sumSq b)
  dotProduct / (magnitudeA * magnitudeB)

/-- Stable insert for a descending sort: the new element goes in front of the
    first element whose score is `≤` its own. -/
def insertDesc {α β : Type} [LinearOrder β] (sc : α → β) (x : α) : List α → List α
  | [] => [x]
  | y :: ys => if sc y ≤ sc x then x :: y :: ys else y :: insertDesc sc x ys

/-- Stable descending sort, modelling `Array.prototype.sort` (stable per
    ES2019) with the numeric comparator `(a, b) => sc(b) - sc(a)`. -/
def sortDesc {α β : Type} [LinearOrder β] (sc : α → β) (l : List α) : List α :=
  l.foldr (insertDesc sc) []

/-- The `similarities` array of `findRelevantLogs`: every indexed record paired
    with its cosine similarity against the question embedding. -/
def scoredLogs (sqrt : ℚ → ℚ) (questionEmbedding : List ℚ)
    (embeddedLogs : List EmbeddedLog) : List (ErrorLog × ℚ) :=
  embeddedLogs.map fun embeddedLog =>
    (embeddedLog.log, cosineSimilarity sqrt questionEmbedding embeddedLog.embedding)

/-- `RAGSystem.findRelevantLogs`: embed the question, score every indexed
    record, sort by similarity descending, take `topK`, drop the vectors. -/
def findRelevantLogs (sqrt : ℚ → ℚ) (embed : Str → List ℚ) (question : Str)
    (embeddedLogs : List EmbeddedLog) (topK : Nat) : List ErrorLog :=
  let questionEmbedding := embed question
  let similarities := scoredLogs sqrt questionEmbedding embeddedLogs
  let sorted := sortDesc (fun p => p.2) similarities
  (sorted.take topK).map fun p => p.1

/-- Increment the count of a key in an insertion-ordered frequency table
    (JS object with string keys preserves insertion order). -/
def bump (m : List (String × Nat)) (k : String) : List (String × Nat) :=
  match m with
  | [] => [(k, 1)]
  | (k', n) :: rest => if k' = k then (k', n + 1) :: rest else (k', n) :: bump rest k

/-- Frequency table of `key log` over the corpus, in first-seen order. -/
def countsBy (key : ErrorLog → String) (logs : List ErrorLog) : List (String × Nat) :=
  logs.foldl (fun m log => bump m (key log)) []

/-- `Object.entries(t).sort(([,a],[,b]) => b - a).map(...).join("\n")`:
    one `  - key: count` line per entry, sorted descending by count. -/
def statLines (entries : List (String × Nat)) : Str :=
  List.intercalate (S "\n")
    ((sortDesc (fun p => p.2) entries).map fun p =>
      S "  - " ++ S p.1 ++ S ": " ++ S (toString p.2))

/-- `RAGSystem.getStatistics`: the aggregate statistics block, computed fresh
    from the full corpus. -/
def getStatistics (allLogs : List ErrorLog) : Str :=
  jsTrim (S "\nОБЩАЯ СТАТИСТИКА ЛОГОВ:\n-----------------------\nВсего записей: " ++
    S (toString allLogs.length) ++ S "\n\nОшибки по типам:\n" ++
    statLines (countsBy (·.error_type) allLogs) ++ S "\n\nОшибки по сервисам:\n" ++
    statLines (countsBy (·.service) allLogs) ++ S "\n    ")

/-- `RAGSystem.getPersonalizedSummary`. The `pers` argument is the installed
    `PersonalizationManager` with its loaded profile; `none` covers both "no
    manager" and "no profile" (the CLI installs the manager only after a
    successful `loadProfile`). -/
def getPersonalizedSummary (pers : Option UserProfile)
    (allLogs : List ErrorLog) : Str :=
  match pers with
  | none => S ""
  | some profile =>
    let userServices := profile.responsibilities.services
    let relevantLogs := allLogs.filter fun log =>
      isRelevantToUser profile log.service log.error_type
    if relevantLogs.length = 0 then
      let emoji := if profile.preferences.useEmoji then S " ✅" else S ""
      S "\n" ++ emoji ++ S " В твоих сервисах (" ++
        S (String.intercalate ", " userServices) ++ S ") всё спокойно!"
    else
      let emoji := if profile.preferences.useEmoji then S " ⚠️" else S ""
      S "\n" ++ emoji ++ S " ВАЖНО ДЛЯ ТЕБЯ: " ++ S (toString relevantLogs.length) ++
        S " проблем" ++ (if relevantLogs.length = 1 then S "а" else S "") ++
        S " в твоих сервисах (" ++ S (String.intercalate ", " userServices) ++ S ")"

/-! #### askQuestion: intents, responses, prompt assembly -/

/-- Query intents (§3 of the spec); derived from the regex cascade. -/
inductive QueryIntent where
  | NameLookup
  | PersonalProfile
  | Statistical
  | Analytical
deriving DecidableEq

/-- Early response of the `isNameQuery` branch (`profile?.name` is falsy for
    both a missing profile and an empty name). -/
def nameLookupResponse (pers : Option UserProfile) : Str :=
  match pers with
  | some p =>
    if p.name = "" then S "Имя в профиле не задано."
    else (if p.preferences.useEmoji then S "👤 " else S "") ++ S p.name
  | none => S "Имя в профиле не задано."

/-- Early response of the `isPersonalQuery` branch. -/
def personalProfileResponse (p : UserProfile) (allLogs : List ErrorLog) : Str :=
  (if p.preferences.useEmoji then S "👤 " else S "") ++
    S "Вот что я знаю о тебе:\n\n" ++ getUserContext p ++ S "\n\nРабочие часы: " ++
    S p.workingHours.start ++ S " - " ++ S p.workingHours.«end» ++
    S "\nСтиль ответов: " ++ S p.preferences.answerStyle ++
    S "\nТехнический уровень: " ++ S p.preferences.technicalLevel ++ S "\n\n" ++
    getPersonalizedSummary (some p) allLogs

/-- Local `technicalLevel`: `profile?.preferences?.technicalLevel || "advanced"`
    (an empty string is falsy in JS). -/
def technicalLevelOf (pers : Option UserProfile) : String :=
  match pers with
  | some p =>
    if p.preferences.technicalLevel = "" then "advanced"
    else p.preferences.technicalLevel
  | none => "advanced"

/-- Local `useEmoji`: `profile?.preferences?.useEmoji ?? false`. -/
def useEmojiOf (pers : Option UserProfile) : Bool :=
  match pers with
  | some p => p.preferences.useEmoji
  | none => false

/-- Local `responsibleServices` (`length` 0 is falsy). -/
def responsibleServicesOf (pers : Option UserProfile) : String :=
  match pers with
  | some p =>
    if p.responsibilities.services.length = 0 then "не указано"
    else String.intercalate ", " p.responsibilities.services
  | none => "не указано"

/-- Local `criticalErrors` (`length` 0 is falsy). -/
def criticalErrorsOf (pers : Option UserProfile) : String :=
  match pers with
  | some p =>
    if p.responsibilities.criticalErrors.length = 0 then "не указано"
    else String.intercalate ", " p.responsibilities.criticalErrors
  | none => "не указано"

/-- The `USER CONTEXT` block of the system prompt. -/
def userContextBlock (pers : Option UserProfile) : Str :=
  match pers with
  | some p => S "USER CONTEXT:\n" ++ getUserContext p ++ S "\n"
  | none => S "USER CONTEXT:\nне задан\n"

/-- The `DECISION POLICY` block of the system prompt. -/
def decisionPolicy (pers : Option UserProfile) : Str :=
  jsTrim (S "\nDECISION POLICY (ОБЯЗАТЕЛЬНО):\n1. Если ошибка относится к сервисам пользователя (" ++
    S (responsibleServicesOf pers) ++
    S ") → это ГЛАВНЫЙ ПРИОРИТЕТ ответа.\n2. Если тип ошибки входит в критичные (" ++
    S (criticalErrorsOf pers) ++
    S ") → помечай как \"КРИТИЧНО ДЛЯ ТЕБЯ\" и выноси в начало.\n3. Чужие сервисы упоминай кратко, без углубления.\n4. Уровень объяснений: " ++
    S (technicalLevelOf pers) ++
    S ". Базовые вещи не объясняй.\n5. Пиши напрямую пользователю: \"у тебя\", \"твой сервис\", \"твоя зона ответственности\".\n")

/-- The `OUTPUT RULES` block of the system prompt. -/
def outputRules : Str :=
  jsTrim (S "\nOUTPUT RULES (ОБЯЗАТЕЛЬНО):\n- Запрещено отвечать обезличенно (\"в системе\", \"в целом\", \"обычно\").\n- Запрещены предположения без данных (\"возможно\", \"вероятно\") в статистическом режиме.\n- Если emoji отключены — не используй emoji вообще.\n- Не пересказывай логи: анализируй и делай выводы.\n")

/-- The `RESPONSE FORMAT` block of the system prompt. -/
def responseFormat : Str :=
  jsTrim (S "\nRESPONSE FORMAT (ОБЯЗАТЕЛЕН):\n1) ВЫВОД (1–2 строки, персонально)\n2) ЧТО ПРОИСХОДИТ (факты, цифры)\n3) ПОЧЕМУ ЭТО ВАЖНО ДЛЯ ТЕБЯ\n4) ЧТО ПРОВЕРИТЬ / СДЕЛАТЬ (маркированный список)\n")

/-- The `emojiRule` line of the system prompt. -/
def emojiRuleOf (pers : Option UserProfile) : Str :=
  if useEmojiOf pers then S "EMOJI: разрешены, но умеренно (0–3 на ответ)."
  else S "EMOJI: запрещены."

/-- `baseSystemPrompt` of `askQuestion`. -/
def baseSystemPrompt (pers : Option UserProfile) : Str :=
  jsTrim (S "\nROLE:\nТы — персональный аналитик логов и ошибок (RAG). Ты отвечаешь ОДНОМУ пользователю и обязан учитывать его профиль.\n\nIMPORTANT:\nИгнорирование персонализации считается ошибкой ответа.\n\nBrevity policy:\n- Если вопрос можно закрыть одним фактом/числом/словом — ответь одной строкой.\n- НЕ добавляй разделы и списки, если они не нужны для ответа.\n- Формат из 4 секций используй только когда вопрос требует объяснения/анализа.э\n\nPersonal questions about the user profile:\n- Если вопрос про имя/роль/рабочие часы/сервисы — отвечай ТОЛЬКО данными профиля.\n- Запрещено добавлять анализ логов, статистику и рекомендации.\n\n" ++
    emojiRuleOf pers ++ S "\n\n" ++ userContextBlock pers ++ S "\n\n" ++
    decisionPolicy pers ++ S "\n\n" ++ outputRules ++ S "\n\n" ++
    responseFormat ++ S "\n")

/-- The literal prompt text between the base prompt and the embedded
    statistics in the `MODE: STATISTICS` branch. -/
def statModeHeader : Str :=
  S "\n\nMODE: STATISTICS\n\nAVAILABLE DATA:\nИспользуй ТОЛЬКО агрегированную статистику ниже. Примеры логов игнорируй полностью.\n\nSTATISTICS:\n"

/-- The literal prompt text after the embedded statistics in the
    `MODE: STATISTICS` branch. -/
def statModeRules : Str :=
  S "\n\nRULES FOR THIS MODE:\n1) Все цифры должны быть строго из STATISTICS.\n2) Никаких догадок, никаких \"возможно/вероятно\".\n3) Если вопрос про сервисы пользователя — упомяни это в ВЫВОДЕ.\n4) Если критичная ошибка встречается — явно пометь \"КРИТИЧНО ДЛЯ ТЕБЯ\".\n"

/-- The system prompt of the `MODE: STATISTICS` branch. It is built from the
    base prompt and the aggregate statistics only: the retrieved records are
    not an argument. -/
def statisticalSystemPrompt (pers : Option UserProfile)
    (allLogs : List ErrorLog) : Str :=
  jsTrim (S "\n" ++ baseSystemPrompt pers ++ statModeHeader ++
    getStatistics allLogs ++ statModeRules)

/-- One `[Запись N]` block of the `LOG EXAMPLES` context. -/
def renderLogEntry (idx : Nat) (log : ErrorLog) : Str :=
  jsTrim (S "\n[Запись " ++ S (toString (idx + 1)) ++ S "]\nСервис: " ++
    S log.service ++ S "\nТип ошибки: " ++ S log.error_type ++ S "\nСообщение: " ++
    S log.message ++ S "\nВремя: " ++ S log.timestamp ++ S "\nUser ID: " ++
    (match log.user_id with
     | some u => if u = "" then S "N/A" else S u
     | none => S "N/A") ++
    S "\nМетаданные: " ++ jsonStringifyPretty log.metadata ++ S "\n      ")

/-- The `context` string: retrieved records rendered and joined. -/
def contextString (relevantLogs : List ErrorLog) : Str :=
  List.intercalate (S "\n\n---\n\n") (relevantLogs.mapIdx renderLogEntry)

/-- The system prompt of the `MODE: ANALYSIS` branch. -/
def analysisSystemPrompt (pers : Option UserProfile) (allLogs : List ErrorLog)
    (relevantCount : Nat) : Str :=
  jsTrim (S "\n" ++ baseSystemPrompt pers ++
    S "\n\nMODE: ANALYSIS\n\nGLOBAL STATISTICS (для подсчётов и контекста):\n" ++
    getStatistics allLogs ++ S "\n\nCONTEXT LOGS:\nНиже приведены примеры (" ++
    S (toString relevantCount) ++ S " из " ++ S (toString allLogs.length) ++
    S "). Они НЕ отражают полную картину.\nИспользуй их ТОЛЬКО для деталей (симптомы, паттерны, примеры сообщений), а не для итоговых подсчётов.\n")

/-- Observable outcome of one `askQuestion` call: the classified intent, the
    number of question-embedding calls issued, whether similarity ranking ran,
    the early profile-based response if one was returned, and the prompt pair
    handed to the chat collaborator otherwise. -/
structure AskResult where
  intent : QueryIntent
  embedCalls : Nat
  ranked : Bool
  directResponse : Option Str
  systemPrompt : Option Str
  userMessage : Option Str

/-- The retrieval path of `askQuestion` (taken when neither early branch
    fired): retrieve the top 8 records, then assemble the statistical or
    analytical prompt pair. -/
def retrievalResult (sqrt : ℚ → ℚ) (embed : Str → List ℚ)
    (pers : Option UserProfile) (allLogs : List ErrorLog)
    (embeddedLogs : List EmbeddedLog) (question : Str) : AskResult :=
  let isStatistical := isStatisticalQuery question
  let relevantLogs := findRelevantLogs sqrt embed question embeddedLogs 8
  if isStatistical then
    { intent := .Statistical, embedCalls := 1, ranked := true,
      directResponse := none,
      systemPrompt := some (statisticalSystemPrompt pers allLogs),
      userMessage := some (jsTrim (S "QUESTION:\n" ++ question)) }
  else
    { intent := .Analytical, embedCalls := 1, ranked := true,
      directResponse := none,
      systemPrompt := some (analysisSystemPrompt pers allLogs relevantLogs.length),
      userMessage := some (jsTrim (S "\nQUESTION:\n" ++ question ++
        S "\n\nLOG EXAMPLES:\n" ++ contextString relevantLogs ++ S "\n")) }

/-- `RAGSystem.askQuestion`. `pers` is the installed personalization manager
    with its loaded profile (`none` when absent; the CLI installs it only
    after a successful profile load, so "manager present with a null profile"
    does not occur in the composed program). -/
def askQuestion (sqrt : ℚ → ℚ) (embed : Str → List ℚ)
    (pers : Option UserProfile) (allLogs : List ErrorLog)
    (embeddedLogs : List EmbeddedLog) (question : Str) : AskResult :=
  let q := normalize question
  if isNameQuery q then
    { intent := .NameLookup, embedCalls := 0, ranked := false,
      directResponse := some (nameLookupResponse pers),
      systemPrompt := none, userMessage := none }
  else
    match pers with
    | some p =>
      if isPersonalQuery question then
        { intent := .PersonalProfile, embedCalls := 0, ranked := false,
          directResponse := some (personalProfileResponse p allLogs),
          systemPrompt := none, userMessage := none }
      else retrievalResult sqrt embed (some p) allLogs embeddedLogs question
    | none => retrievalResult sqrt embed none allLogs embeddedLogs question

/-! ### Indexing and the embedding cache (`loadAndIndexLogs`) -/

/-- The indexing loop of `loadAndIndexLogs`: embed each record's text
    sequentially, aborting on the first failure. Returns the result and the
    number of embedding calls issued. -/
def indexAll {ε : Type} (embed : Str → Except ε (List ℚ)) :
    List ErrorLog → Except ε (List EmbeddedLog) × Nat
  | [] => (.ok [], 0)
  | log :: rest =>
    match embed (logToText log) with
    | .error e => (.error e, 1)
    | .ok embedding =>
      match indexAll embed rest with
      | (res, n) =>
        (res.map (fun tail =>
          { log := log, embedding := embedding, text := logToText log } :: tail),
         n + 1)

/-- `RAGSystem.loadAndIndexLogs`. External collaborators are parameters:
    `hash` (md5 of the corpus file content), `parseLogs` (`JSON.parse`),
    `embed` (the embedding endpoint), `cacheFile` (the parsed cache file, or
    `none` when absent/unreadable), `now` (the timestamp written into a new
    cache entry). Returns the indexing result, the list of cache entries
    written to persistent storage during the call, and the number of
    embedding calls issued. -/
def loadAndIndexLogs {ε : Type} (hash : String → String)
    (parseLogs : String → List ErrorLog) (embed : Str → Except ε (List ℚ))
    (fileContent : String) (cacheFile : Option EmbeddingCache) (now : String) :
    Except ε (List EmbeddedLog) × List EmbeddingCache × Nat :=
  let allLogs := parseLogs fileContent
  let currentHash := hash fileContent
  let recompute :=
    match indexAll embed allLogs with
    | (.error e, n) => ((.error e : Except ε (List EmbeddedLog)),
        ([] : List EmbeddingCache), n)
    | (.ok embeddedLogs, n) =>
      (.ok embeddedLogs,
       [{ fileHash := currentHash, embeddedLogs := embeddedLogs, createdAt := now }],
       n)
  match cacheFile with
  | some cache =>
    if cache.fileHash = currentHash then (.ok cache.embeddedLogs, [], 0)
    else recompute
  | none => recompute

/-- The embedded index produced by a full (cache-missing) indexing run under an
    always-succeeding embedding collaborator `emb`. -/
def freshIndex (parseLogs : String → List ErrorLog) (emb : Str → List ℚ)
    (fileContent : String) : List EmbeddedLog :=
  (parseLogs fileContent).map fun log =>
    { log := log, embedding := emb (logToText log), text := logToText log }

/-- Invariant of the manager's stored profile: absent, or structurally valid. -/
def validStored (stored : Option JValue) : Prop :=
  stored = none ∨ ∃ j, stored = some j ∧ validateProfile j = .ok ()

/-! ### Concrete sample inputs for executable checks -/

/-- A sample profile: responsible for `api-gateway`, critical error
    `OutOfMemoryError` (the profile of the spec's relevance example). -/
def sampleProfile : UserProfile :=
  { name := "Иван"
    role := "DevOps"
    experience := "senior"
    timezone := "UTC+3"
    preferences :=
      { answerStyle := "short"
        includeRecommendations := true
        technicalLevel := "advanced"
        useEmoji := false }
    responsibilities :=
      { services := ["api-gateway"]
        criticalErrors := ["OutOfMemoryError"] }
    workingHours := { start := "09:00", «end» := "18:00" } }

/-- A sample corpus record on the sample profile's service. -/
def sampleLog : ErrorLog :=
  { timestamp := "2024-01-01T00:00:00Z"
    level := "ERROR"
    service := "api-gateway"
    error_type := "Timeout"
    message := "upstream timed out"
    user_id := none
    request_id := "r-1"
    stack_trace := ""
    metadata := [] }

/-- The sample record with a sample embedding vector. -/
def sampleEmbedded : EmbeddedLog :=
  { log := sampleLog, embedding := [1, 0], text := [] }

/-- An embedding collaborator that always fails. -/
def failEmbed : Str → Except Unit (List ℚ) := fun _ => .error ()

/-! ### Helper lemmas -/

/-- `insertDesc` splits the list at the first element of score `≤` the new one. -/
theorem insertDesc_eq {α β : Type} [LinearOrder β] (sc : α → β) (x : α)
    (l : List α) :
    insertDesc sc x l =
      l.takeWhile (fun y => !decide (sc y ≤ sc x)) ++
        x :: l.dropWhile (fun y => !decide (sc y ≤ sc x)) := by
  induction l with
  | nil => simp [insertDesc]
  | cons y ys ih =>
    by_cases h : sc y ≤ sc x
    · simp [insertDesc, h, List.takeWhile_cons, List.dropWhile_cons]
    · simp [insertDesc, h, List.takeWhile_cons, List.dropWhile_cons, ih]

/-- Inserting is a permutation. -/
theorem insertDesc_perm {α β : Type} [LinearOrder β] (sc : α → β) (x : α)
    (l : List α) : List.Perm (insertDesc sc x l) (x :: l) := by
  rw [insertDesc_eq]
  refine List.Perm.trans List.perm_middle ?_
  rw [List.takeWhile_append_dropWhile]

/-- The stable descending sort is a permutation of its input. -/
theorem sortDesc_perm {α β : Type} [LinearOrder β] (sc : α → β) (l : List α) :
    List.Perm (sortDesc sc l) l := by
  induction l with
  | nil => exact List.Perm.refl _
  | cons x ys ih =>
    have hstep : sortDesc sc (x :: ys) = insertDesc sc x (sortDesc sc ys) := rfl
    rw [hstep]
    exact List.Perm.trans (insertDesc_perm sc x (sortDesc sc ys)) (List.Perm.cons x ih)

/-- The stable descending sort preserves length. -/
theorem sortDesc_length {α β : Type} [LinearOrder β] (sc : α → β) (l : List α) :
    (sortDesc sc l).length = l.length :=
  (sortDesc_perm sc l).length_eq

/-- Stability of the descending sort, as commutation with any equal-score
    filter: the subsequence of elements of a given score is untouched. -/
theorem sortDesc_filter_stable {α β : Type} [LinearOrder β] (sc : α → β)
    (c : β) (l : List α) :
    (sortDesc sc l).filter (fun y => decide (sc y = c)) =
      l.filter (fun y => decide (sc y = c)) := by
  induction l with
  | nil => rfl
  | cons x ys ih =>
    have hstep : sortDesc sc (x :: ys) = insertDesc sc x (sortDesc sc ys) := rfl
    have hsplit : (sortDesc sc ys).filter (fun y => decide (sc y = c)) =
        ((sortDesc sc ys).takeWhile (fun y => !decide (sc y ≤ sc x))).filter
            (fun y => decide (sc y = c)) ++
          ((sortDesc sc ys).dropWhile (fun y => !decide (sc y ≤ sc x))).filter
            (fun y => decide (sc y = c)) := by
      rw [← List.filter_append, List.takeWhile_append_dropWhile]
    rw [hstep, insertDesc_eq, List.filter_append, List.filter_cons]
    by_cases hx : sc x = c
    · have hpx : decide (sc x = c) = true := by simp [hx]
      have htw : ((sortDesc sc ys).takeWhile
          (fun y => !decide (sc y ≤ sc x))).filter (fun y => decide (sc y = c)) = [] := by
        rw [List.filter_eq_nil_iff]
        intro y hy
        have hq := List.mem_takeWhile_imp hy
        simp only [Bool.not_eq_true', decide_eq_false_iff_not] at hq
        simp only [decide_eq_true_eq]
        intro hcy
        exact hq (le_of_eq (hcy.trans hx.symm))
      rw [htw, List.nil_append, if_pos hpx, List.filter_cons, if_pos hpx]
      have hdw : ((sortDesc sc ys).dropWhile (fun y => !decide (sc y ≤ sc x))).filter
          (fun y => decide (sc y = c)) = ys.filter (fun y => decide (sc y = c)) := by
        rw [← ih, hsplit, htw, List.nil_append]
      rw [hdw]
    · have hpx : ¬(decide (sc x = c) = true) := by simp [hx]
      rw [if_neg hpx, ← hsplit, ih, List.filter_cons, if_neg hpx]

/-- `dropWhile` distributes over an append whose left part survives. -/
theorem dropWhile_append_left {α : Type} (p : α → Bool) (a b : List α)
    (h : a.dropWhile p ≠ []) :
    (a ++ b).dropWhile p = a.dropWhile p ++ b := by
  induction a with
  | nil => simp at h
  | cons x xs ih =>
    by_cases hx : p x = true
    · simp only [List.dropWhile_cons, hx, if_true, List.cons_append] at h ⊢
      exact ih h
    · simp [List.dropWhile_cons, hx]

/-- Left trim past an append whose left part keeps a character. -/
theorem jsTrimLeft_append (a b : Str) (h : jsTrimLeft a ≠ []) :
    jsTrimLeft (a ++ b) = jsTrimLeft a ++ b :=
  dropWhile_append_left isSpaceJS a b h

/-- Right trim past an append whose right part keeps a character. -/
theorem jsTrimRight_append (a b : Str) (h : jsTrimRight b ≠ []) :
    jsTrimRight (a ++ b) = a ++ jsTrimRight b := by
  unfold jsTrimRight at h ⊢
  have hb : b.reverse.dropWhile isSpaceJS ≠ [] := by
    intro hnil
    exact h (by rw [hnil]; rfl)
  rw [List.reverse_append, dropWhile_append_left isSpaceJS _ _ hb,
    List.reverse_append, List.reverse_reverse]

/-- A trimmed concatenation keeps its middle verbatim, as long as both outer
    parts contain some non-whitespace character. -/
theorem jsTrim_append_middle (a m b : Str) (ha : jsTrimLeft a ≠ [])
    (hb : jsTrimRight b ≠ []) :
    jsTrim (a ++ m ++ b) = jsTrimLeft a ++ (m ++ jsTrimRight b) := by
  unfold jsTrim
  rw [show a ++ m ++ b = a ++ (m ++ b) from by rw [List.append_assoc]]
  rw [jsTrimLeft_append _ _ ha]
  rw [show jsTrimLeft a ++ (m ++ b) = jsTrimLeft a ++ m ++ b from by
    rw [List.append_assoc]]
  rw [jsTrimRight_append _ _ hb, List.append_assoc]

/-- A non-whitespace member keeps the left trim nonempty. -/
theorem jsTrimLeft_ne_nil_of_mem {a : Str} {c : Char} (hc : c ∈ a)
    (hs : isSpaceJS c = false) : jsTrimLeft a ≠ [] := by
  unfold jsTrimLeft
  intro h
  rw [List.dropWhile_eq_nil_iff] at h
  have := h c hc
  rw [hs] at this
  cases this

/-- A non-whitespace member keeps the right trim nonempty. -/
theorem jsTrimRight_ne_nil_of_mem {b : Str} {c : Char} (hc : c ∈ b)
    (hs : isSpaceJS c = false) : jsTrimRight b ≠ [] := by
  unfold jsTrimRight
  intro h
  have hrev : b.reverse.dropWhile isSpaceJS = [] := by
    have := congrArg List.reverse h
    rwa [List.reverse_reverse] at this
  rw [List.dropWhile_eq_nil_iff] at hrev
  have := hrev c (List.mem_reverse.mpr hc)
  rw [hs] at this
  cases this

/-- Unfolding equation of `loadAndIndexLogs` for an absent cache file. -/
theorem loadAndIndexLogs_none {ε : Type} (hash : String → String)
    (parseLogs : String → List ErrorLog) (embed : Str → Except ε (List ℚ))
    (fileContent now : String) :
    loadAndIndexLogs hash parseLogs embed fileContent none now =
      (match indexAll embed (parseLogs fileContent) with
       | (.error e, n) => ((.error e : Except ε (List EmbeddedLog)),
           ([] : List EmbeddingCache), n)
       | (.ok embeddedLogs, n) =>
         (.ok embeddedLogs,
          [{ fileHash := hash fileContent, embeddedLogs := embeddedLogs,
             createdAt := now }],
          n)) := rfl

/-- Unfolding equation of `loadAndIndexLogs` for a present cache file: a
    fingerprint hit returns the cached entries, a mismatch behaves exactly as
    an absent cache. -/
theorem loadAndIndexLogs_some {ε : Type} (hash : String → String)
    (parseLogs : String → List ErrorLog) (embed : Str → Except ε (List ℚ))
    (fileContent now : String) (cache : EmbeddingCache) :
    loadAndIndexLogs hash parseLogs embed fileContent (some cache) now =
      (if cache.fileHash = hash fileContent
       then (.ok cache.embeddedLogs, [], 0)
       else loadAndIndexLogs hash parseLogs embed fileContent none now) := rfl

/-- The indexing loop under an always-succeeding embedding collaborator. -/
theorem indexAll_ok {ε : Type} (emb : Str → List ℚ) (logs : List ErrorLog) :
    indexAll (fun t => (Except.ok (emb t) : Except ε (List ℚ))) logs =
      (.ok (logs.map fun log =>
        { log := log, embedding := emb (logToText log), text := logToText log }),
       logs.length) := by
  induction logs with
  | nil => rfl
  | cons l ls ih => simp [indexAll, ih, Except.map]

/-- `askQuestion` on a question whose normalized form matches a name regex:
    the early name branch. -/
theorem askQuestion_eq_name (sqrt : ℚ → ℚ) (embed : Str → List ℚ)
    (pers : Option UserProfile) (allLogs : List ErrorLog)
    (e : List EmbeddedLog) (question : Str)
    (hn : isNameQuery (normalize question) = true) :
    askQuestion sqrt embed pers allLogs e question =
      { intent := .NameLookup, embedCalls := 0, ranked := false,
        directResponse := some (nameLookupResponse pers),
        systemPrompt := none, userMessage := none } := by
  simp only [askQuestion, hn, if_true]

/-- `askQuestion` on a personal question with a loaded profile:
    the early personal branch. -/
theorem askQuestion_eq_personal (sqrt : ℚ → ℚ) (embed : Str → List ℚ)
    (p : UserProfile) (allLogs : List ErrorLog) (e : List EmbeddedLog)
    (question : Str) (hn : isNameQuery (normalize question) = false)
    (hp : isPersonalQuery question = true) :
    askQuestion sqrt embed (some p) allLogs e question =
      { intent := .PersonalProfile, embedCalls := 0, ranked := false,
        directResponse := some (personalProfileResponse p allLogs),
        systemPrompt := none, userMessage := none } := by
  simp only [askQuestion, hn, Bool.false_eq_true, if_false, hp, if_true]

/-- `askQuestion` when neither early branch fires: the retrieval path. -/
theorem askQuestion_eq_retrieval (sqrt : ℚ → ℚ) (embed : Str → List ℚ)
    (pers : Option UserProfile) (allLogs : List ErrorLog)
    (e : List EmbeddedLog) (question : Str)
    (hn : isNameQuery (normalize question) = false)
    (hp : ∀ p, pers = some p → isPersonalQuery question = false) :
    askQuestion sqrt embed pers allLogs e question =
      retrievalResult sqrt embed pers allLogs e question := by
  cases pers with
  | none => simp only [askQuestion, hn, Bool.false_eq_true, if_false]
  | some p =>
    simp only [askQuestion, hn, Bool.false_eq_true, if_false, hp p rfl]

/-- The retrieval path's statistical branch, with its prompt pair. -/
theorem retrievalResult_stat (sqrt : ℚ → ℚ) (embed : Str → List ℚ)
    (pers : Option UserProfile) (allLogs : List ErrorLog)
    (e : List EmbeddedLog) (question : Str)
    (hs : isStatisticalQuery question = true) :
    retrievalResult sqrt embed pers allLogs e question =
      { intent := .Statistical, embedCalls := 1, ranked := true,
        directResponse := none,
        systemPrompt := some (statisticalSystemPrompt pers allLogs),
        userMessage := some (jsTrim (S "QUESTION:\n" ++ question)) } := by
  simp only [retrievalResult, hs, if_true]

/-- The retrieval path's analytical branch, with its prompt pair. -/
theorem retrievalResult_ana (sqrt : ℚ → ℚ) (embed : Str → List ℚ)
    (pers : Option UserProfile) (allLogs : List ErrorLog)
    (e : List EmbeddedLog) (question : Str)
    (hs : isStatisticalQuery question = false) :
    retrievalResult sqrt embed pers allLogs e question =
      { intent := .Analytical, embedCalls := 1, ranked := true,
        directResponse := none,
        systemPrompt := some (analysisSystemPrompt pers allLogs
          (findRelevantLogs sqrt embed question e 8).length),
        userMessage := some (jsTrim (S "\nQUESTION:\n" ++ question ++
          S "\n\nLOG EXAMPLES:\n" ++
          contextString (findRelevantLogs sqrt embed question e 8) ++ S "\n")) } := by
  simp only [retrievalResult, hs, Bool.false_eq_true, if_false]

/-- The retrieval path only ever classifies Statistical or Analytical. -/
theorem retrievalResult_intent (sqrt : ℚ → ℚ) (embed : Str → List ℚ)
    (pers : Option UserProfile) (allLogs : List ErrorLog)
    (e : List EmbeddedLog) (question : Str) :
    (retrievalResult sqrt embed pers allLogs e question).intent = .Statistical ∨
      (retrievalResult sqrt embed pers allLogs e question).intent = .Analytical := by
  cases hs : isStatisticalQuery question with
  | true => left; rw [retrievalResult_stat sqrt embed pers allLogs e question hs]
  | false => right; rw [retrievalResult_ana sqrt embed pers allLogs e question hs]

/-- A Statistical classification pins down all three branch conditions. -/
theorem intent_statistical_conditions (sqrt : ℚ → ℚ) (embed : Str → List ℚ)
    (pers : Option UserProfile) (allLogs : List ErrorLog)
    (e : List EmbeddedLog) (question : Str)
    (h : (askQuestion sqrt embed pers allLogs e question).intent = .Statistical) :
    isNameQuery (normalize question) = false ∧
      (∀ p, pers = some p → isPersonalQuery question = false) ∧
      isStatisticalQuery question = true := by
  cases hni : isNameQuery (normalize question) with
  | true =>
    rw [askQuestion_eq_name sqrt embed pers allLogs e question hni] at h
    simp at h
  | false =>
    have hp : ∀ p, pers = some p → isPersonalQuery question = false := by
      intro p hpers
      subst hpers
      cases hpi : isPersonalQuery question with
      | false => rfl
      | true =>
        rw [askQuestion_eq_personal sqrt embed p allLogs e question hni hpi] at h
        simp at h
    refine ⟨rfl, hp, ?_⟩
    rw [askQuestion_eq_retrieval sqrt embed pers allLogs e question hni hp] at h
    cases hs : isStatisticalQuery question with
    | true => rfl
    | false =>
      rw [retrievalResult_ana sqrt embed pers allLogs e question hs] at h
      simp at h

/-- The statistical system prompt embeds the aggregate-statistics block
    verbatim. -/
theorem statisticalSystemPrompt_contains_stats (pers : Option UserProfile)
    (allLogs : List ErrorLog) :
    ∃ pre post, statisticalSystemPrompt pers allLogs =
      pre ++ (getStatistics allLogs ++ post) := by
  refine ⟨jsTrimLeft ((S "\n" ++ baseSystemPrompt pers) ++ statModeHeader),
    jsTrimRight statModeRules, ?_⟩
  have ha : jsTrimLeft ((S "\n" ++ baseSystemPrompt pers) ++ statModeHeader) ≠ [] :=
    jsTrimLeft_ne_nil_of_mem (c := 'M')
      (List.mem_append_right _ (by decide)) (by decide)
  have hb : jsTrimRight statModeRules ≠ [] :=
    jsTrimRight_ne_nil_of_mem (c := 'R') (by decide) (by decide)
  exact jsTrim_append_middle _ _ _ ha hb

/-! ### Claim theorems -/

/-- C1 (code bug evidence): `cosineSimilarity` performs its division
    unconditionally; at the zero-magnitude query vector `[0, 0]` against the
    embedding `[3, 4]` the computed numerator and the computed denominator are
    both `0` (for any model of `Math.sqrt` with `sqrt 0 = 0`), so the JS code
    evaluates `0 / 0 = NaN` instead of guarding the case and ranking the
    candidate lowest. -/
theorem cosine_zero_magnitude_unguarded (sqrt : ℚ → ℚ) (h0 : sqrt 0 = 0) :
    cosineSimilarity sqrt [0, 0] [3, 4] =
        dotProd [0, 0] [3, 4] / (sqrt (sumSq [0, 0]) * sqrt (sumSq [3, 4])) ∧
      dotProd ([0, 0] : List ℚ) [3, 4] = 0 ∧
      sqrt (sumSq ([0, 0] : List ℚ)) * sqrt (sumSq ([3, 4] : List ℚ)) = 0 := by
  refine ⟨rfl, by norm_num [dotProd], ?_⟩
  have hz : sumSq ([0, 0] : List ℚ) = 0 := by norm_num [sumSq]
  rw [hz, h0, zero_mul]

/-- C1 witness: the theorem applied at `sqrt := id`. -/
theorem cosine_zero_magnitude_unguarded_witness :
    dotProd ([0, 0] : List ℚ) [3, 4] = 0 ∧
      id (sumSq ([0, 0] : List ℚ)) * id (sumSq ([3, 4] : List ℚ)) = 0 :=
  (cosine_zero_magnitude_unguarded id rfl).2

/-- C2: with the stored fingerprint equal to the freshly computed one, the
    cached entries are returned with zero embedding calls and no cache write;
    otherwise the cache is discarded and the run is identical to a run with no
    cache at all. In particular a second run over the same corpus bytes, fed
    the cache entry written by the first run, returns the identical embedded
    index with zero embedding calls. -/
theorem cache_fingerprint_roundtrip {ε : Type} (hash : String → String)
    (parseLogs : String → List ErrorLog) (emb : Str → List ℚ)
    (fileContent now₁ now₂ : String) :
    (loadAndIndexLogs hash parseLogs
        (fun t => (Except.ok (emb t) : Except ε (List ℚ))) fileContent none now₁ =
      (.ok (freshIndex parseLogs emb fileContent),
       [{ fileHash := hash fileContent,
          embeddedLogs := freshIndex parseLogs emb fileContent,
          createdAt := now₁ }],
       (parseLogs fileContent).length)) ∧
    (loadAndIndexLogs hash parseLogs
        (fun t => (Except.ok (emb t) : Except ε (List ℚ))) fileContent
        (some { fileHash := hash fileContent,
                embeddedLogs := freshIndex parseLogs emb fileContent,
                createdAt := now₁ }) now₂ =
      (.ok (freshIndex parseLogs emb fileContent), [], 0)) ∧
    (∀ (embed : Str → Except ε (List ℚ)) (cache : EmbeddingCache) (now : String),
        cache.fileHash = hash fileContent →
          loadAndIndexLogs hash parseLogs embed fileContent (some cache) now =
            (.ok cache.embeddedLogs, [], 0)) ∧
    (∀ (embed : Str → Except ε (List ℚ)) (cache : EmbeddingCache) (now : String),
        cache.fileHash ≠ hash fileContent →
          loadAndIndexLogs hash parseLogs embed fileContent (some cache) now =
            loadAndIndexLogs hash parseLogs embed fileContent none now) := by
  refine ⟨?_, ?_, ?_, ?_⟩
  · rw [loadAndIndexLogs_none, indexAll_ok]
    rfl
  · rw [loadAndIndexLogs_some]
    simp [freshIndex]
  · intro embed cache now hc
    rw [loadAndIndexLogs_some, if_pos hc]
  · intro embed cache now hc
    rw [loadAndIndexLogs_some, if_neg hc]

/-- C2 witness: a cache hit at concrete inputs returns the cached entries
    with zero embedding calls and no write. -/
theorem cache_fingerprint_roundtrip_witness :
    loadAndIndexLogs (fun _ => "h") (fun _ => ([] : List ErrorLog))
        (fun _ => (Except.ok ([] : List ℚ) : Except Unit (List ℚ))) ""
        (some { fileHash := "h", embeddedLogs := [sampleEmbedded], createdAt := "t" })
        "t2" =
      (.ok [sampleEmbedded], [], 0) :=
  (cache_fingerprint_roundtrip (fun _ => "h") (fun _ => ([] : List ErrorLog))
      (fun _ => ([] : List ℚ)) "" "t" "t2").2.2.1 _
    { fileHash := "h", embeddedLogs := [sampleEmbedded], createdAt := "t" } "t2" rfl

/-- C6: when the cache cannot be used and some embedding request fails, the
    first failure aborts the run: the error propagates to the caller and no
    cache entry at all (in particular no partial one) is written. -/
theorem embedding_failure_aborts_without_cache_write {ε : Type}
    (hash : String → String) (parseLogs : String → List ErrorLog)
    (embed : Str → Except ε (List ℚ)) (fileContent now : String)
    (cacheFile : Option EmbeddingCache) (e : ε)
    (hmiss : ∀ cache, cacheFile = some cache → cache.fileHash ≠ hash fileContent)
    (hfail : (indexAll embed (parseLogs fileContent)).1 = .error e) :
    loadAndIndexLogs hash parseLogs embed fileContent cacheFile now =
      (.error e, [], (indexAll embed (parseLogs fileContent)).2) := by
  cases hrun : indexAll embed (parseLogs fileContent) with
  | mk res n =>
    rw [hrun] at hfail
    simp only at hfail
    subst hfail
    cases cacheFile with
    | none =>
      rw [loadAndIndexLogs_none, hrun]
    | some cache =>
      rw [loadAndIndexLogs_some, if_neg (hmiss cache rfl), loadAndIndexLogs_none,
        hrun]

/-- C6 witness: a one-record corpus whose embedding request fails yields the
    propagated error, an empty write list, and one embedding call. -/
theorem embedding_failure_aborts_without_cache_write_witness :
    loadAndIndexLogs (fun _ => "h") (fun _ => [sampleLog]) failEmbed "" none "t" =
      (.error (), [], 1) :=
  embedding_failure_aborts_without_cache_write (fun _ => "h") (fun _ => [sampleLog])
    failEmbed "" "t" none () (fun cache hc => by cases hc) rfl

/-- C9: `isRelevantToUser` returns `true` exactly when the service matches a
    responsibility service case-insensitively or the error type matches a
    critical error case-insensitively; in particular
    `isRelevantToUser("API-Gateway", "outofmemoryerror")` holds for a profile
    listing `api-gateway` and `OutOfMemoryError`. -/
theorem isRelevantToUser_matches_either_case_insensitive :
    (∀ (p : UserProfile) (serviceName errorType : String),
        isRelevantToUser p serviceName errorType = true ↔
          ((∃ s ∈ p.responsibilities.services, lowerStr s = lowerStr serviceName) ∨
           (∃ e ∈ p.responsibilities.criticalErrors, lowerStr e = lowerStr errorType))) ∧
      isRelevantToUser sampleProfile "API-Gateway" "outofmemoryerror" = true := by
  constructor
  · intro p serviceName errorType
    simp [isRelevantToUser, List.any_eq_true]
  · decide

/-- C9 witness: the iff applied at the spec's concrete example. -/
theorem isRelevantToUser_matches_either_case_insensitive_witness :
    (∃ s ∈ sampleProfile.responsibilities.services,
        lowerStr s = lowerStr "API-Gateway") ∨
      (∃ e ∈ sampleProfile.responsibilities.criticalErrors,
        lowerStr e = lowerStr "outofmemoryerror") :=
  (isRelevantToUser_matches_either_case_insensitive.1 sampleProfile
      "API-Gateway" "outofmemoryerror").mp (by decide)

/-- C10: a failing `loadProfile` leaves the stored profile unchanged, a
    successful one stores the validated value, so along any sequence of
    `loadProfile` calls the stored profile (what `getProfile` returns) is
    always either `null` or a value that passed `validateProfile`. -/
theorem loadProfile_atomic_validated :
    (∀ (current : Option JValue) (outcome : LoadOutcome) (path msg : String),
        (loadProfile current outcome path).1 = .error msg →
          (loadProfile current outcome path).2 = current) ∧
    (∀ (current : Option JValue) (outcome : LoadOutcome) (path : String),
        validStored current → validStored (loadProfile current outcome path).2) ∧
    (∀ steps : List (LoadOutcome × String),
        validStored (getProfile (steps.foldl
          (fun current step => (loadProfile current step.1 step.2).2) none))) := by
  have hpres : ∀ (current : Option JValue) (outcome : LoadOutcome) (path : String),
      validStored current → validStored (loadProfile current outcome path).2 := by
    intro current outcome path hinv
    cases outcome with
    | fileNotFound => exact hinv
    | parseError m => exact hinv
    | readError m => exact hinv
    | parsed j =>
      cases hv : validateProfile j with
      | error m =>
        have heq : loadProfile current (.parsed j) path =
            (.error ("Failed to load profile: " ++ m), current) := by
          simp only [loadProfile, hv]
        rw [heq]
        exact hinv
      | ok u =>
        cases u
        have heq : loadProfile current (.parsed j) path = (.ok (), some j) := by
          simp only [loadProfile, hv]
        rw [heq]
        exact Or.inr ⟨j, rfl, hv⟩
  refine ⟨?_, hpres, ?_⟩
  · intro current outcome path msg h
    cases outcome with
    | fileNotFound => rfl
    | parseError m => rfl
    | readError m => rfl
    | parsed j =>
      cases hv : validateProfile j with
      | error m =>
        have heq : loadProfile current (.parsed j) path =
            (.error ("Failed to load profile: " ++ m), current) := by
          simp only [loadProfile, hv]
        rw [heq]
      | ok u =>
        cases u
        have heq : loadProfile current (.parsed j) path = (.ok (), some j) := by
          simp only [loadProfile, hv]
        rw [heq] at h
        simp at h
  · intro steps
    have hgen : ∀ (steps : List (LoadOutcome × String)) (current : Option JValue),
        validStored current →
          validStored (steps.foldl
            (fun current step => (loadProfile current step.1 step.2).2) current) := by
      intro steps
      induction steps with
      | nil => intro current hinv; exact hinv
      | cons step rest ih =>
        intro current hinv
        exact ih _ (hpres current step.1 step.2 hinv)
    exact hgen steps none (Or.inl rfl)

/-- C10 witness: a failing load at concrete inputs leaves the stored profile
    unchanged. -/
theorem loadProfile_atomic_validated_witness :
    (loadProfile (none : Option JValue) .fileNotFound "config/profile.json").2 =
      none :=
  loadProfile_atomic_validated.1 none .fileNotFound "config/profile.json"
    "Profile file not found: config/profile.json" rfl

/-- C7: ranking is deterministic — the ranker is a pure function of the query,
    the index and `topK`, so two calls agree definitionally — and stable:
    sorting commutes with filtering any fixed similarity score, so records of
    equal score keep their original corpus order, and the returned list is the
    score-descending stable ordering truncated to `topK`. -/
theorem ranking_deterministic_and_stable (sqrt : ℚ → ℚ) (embed : Str → List ℚ)
    (question : Str) (embeddedLogs : List EmbeddedLog) (topK : Nat) (c : ℚ) :
    findRelevantLogs sqrt embed question embeddedLogs topK =
        findRelevantLogs sqrt embed question embeddedLogs topK ∧
      (sortDesc (fun p : ErrorLog × ℚ => p.2)
          (scoredLogs sqrt (embed question) embeddedLogs)).filter
          (fun p => decide (p.2 = c)) =
        (scoredLogs sqrt (embed question) embeddedLogs).filter
          (fun p => decide (p.2 = c)) ∧
      findRelevantLogs sqrt embed question embeddedLogs topK =
        ((sortDesc (fun p : ErrorLog × ℚ => p.2)
            (scoredLogs sqrt (embed question) embeddedLogs)).take topK).map
          (fun p => p.1) :=
  ⟨rfl, sortDesc_filter_stable _ c _, rfl⟩

/-- C8: the ranker returns exactly `min(topK, |index|)` records, and every
    returned record is the `LogRecord` part of some indexed record, with the
    vector dropped. -/
theorem rank_length_and_projection (sqrt : ℚ → ℚ) (embed : Str → List ℚ)
    (question : Str) (embeddedLogs : List EmbeddedLog) (topK : Nat) :
    (findRelevantLogs sqrt embed question embeddedLogs topK).length =
        min topK embeddedLogs.length ∧
      ∀ r ∈ findRelevantLogs sqrt embed question embeddedLogs topK,
        ∃ el ∈ embeddedLogs, r = el.log := by
  constructor
  · simp only [findRelevantLogs]
    rw [List.length_map, List.length_take, sortDesc_length]
    simp [scoredLogs]
  · intro r hr
    simp only [findRelevantLogs] at hr
    rw [List.mem_map] at hr
    obtain ⟨p, hp, hpr⟩ := hr
    have hp2 : p ∈ sortDesc (fun p : ErrorLog × ℚ => p.2)
        (scoredLogs sqrt (embed question) embeddedLogs) :=
      List.take_subset _ _ hp
    have hp3 : p ∈ scoredLogs sqrt (embed question) embeddedLogs :=
      ((sortDesc_perm _ _).mem_iff).mp hp2
    rw [scoredLogs, List.mem_map] at hp3
    obtain ⟨el, hel, hpe⟩ := hp3
    exact ⟨el, hel, by rw [← hpr, ← hpe]⟩

/-- C8 witness: at a concrete one-record index the ranker returns one record,
    which is the log of the indexed record. -/
theorem rank_length_and_projection_witness :
    (findRelevantLogs id (fun _ => []) [] [sampleEmbedded] 5).length = min 5 1 ∧
      ∃ el ∈ [sampleEmbedded], sampleLog = el.log :=
  ⟨(rank_length_and_projection id (fun _ => []) [] [sampleEmbedded] 5).1,
   (rank_length_and_projection id (fun _ => []) [] [sampleEmbedded] 5).2
     sampleLog (by decide)⟩

/-- C3 (code bug evidence): the name regexes assert `\b` next to Cyrillic
    letters, which are not ECMAScript word characters, so `isNameQuery` is
    false on the all-Cyrillic question "как меня зовут и сколько всего
    ошибок" even though it matches the personal and statistical patterns;
    the question is therefore answered by the PersonalProfile branch (profile
    loaded) or classified Statistical (no profile), never NameLookup. -/
theorem classifier_mixed_question_not_namelookup :
    isNameQuery (normalize (S "как меня зовут и сколько всего ошибок")) = false ∧
      isPersonalQuery (S "как меня зовут и сколько всего ошибок") = true ∧
      isStatisticalQuery (S "как меня зовут и сколько всего ошибок") = true ∧
      (askQuestion id (fun _ => []) (some sampleProfile) [] []
          (S "как меня зовут и сколько всего ошибок")).intent = .PersonalProfile ∧
      (askQuestion id (fun _ => []) none [] []
          (S "как меня зовут и сколько всего ошибок")).intent = .Statistical := by
  refine ⟨by decide, by decide, by decide, ?_, ?_⟩
  · rw [askQuestion_eq_personal id (fun _ => []) sampleProfile [] []
      (S "как меня зовут и сколько всего ошибок") (by decide) (by decide)]
  · rw [askQuestion_eq_retrieval id (fun _ => []) none [] []
        (S "как меня зовут и сколько всего ошибок") (by decide)
        (fun p hp => by cases hp),
      retrievalResult_stat id (fun _ => []) none [] []
        (S "как меня зовут и сколько всего ошибок") (by decide)]

set_option maxRecDepth 100000 in
/-- C4 counterexample: a PersonalProfile answer is not a function of the
    profile fields alone — with the profile and question fixed, changing only
    the corpus changes the response (through the relevance summary computed
    over the full corpus). -/
theorem personal_response_depends_on_corpus :
    (askQuestion id (fun _ => []) (some sampleProfile) [] []
        (S "кто я")).intent = .PersonalProfile ∧
      (askQuestion id (fun _ => []) (some sampleProfile) [sampleLog] []
          (S "кто я")).intent = .PersonalProfile ∧
      (askQuestion id (fun _ => []) (some sampleProfile) [] []
          (S "кто я")).directResponse ≠
        (askQuestion id (fun _ => []) (some sampleProfile) [sampleLog] []
            (S "кто я")).directResponse := by
  refine ⟨?_, ?_, ?_⟩
  · rw [askQuestion_eq_personal id (fun _ => []) sampleProfile [] []
      (S "кто я") (by decide) (by decide)]
  · rw [askQuestion_eq_personal id (fun _ => []) sampleProfile [sampleLog] []
      (S "кто я") (by decide) (by decide)]
  · rw [askQuestion_eq_personal id (fun _ => []) sampleProfile [] []
        (S "кто я") (by decide) (by decide),
      askQuestion_eq_personal id (fun _ => []) sampleProfile [sampleLog] []
        (S "кто я") (by decide) (by decide)]
    decide

/-- C4 (amended): a question answered by the NameLookup or PersonalProfile
    branch skips retrieval entirely — no question embedding is created, no
    similarity ranking runs, no prompt is assembled, and the response is
    independent of the vector index; the PersonalProfile response is built
    from the profile fields together with the relevance summary over the full
    corpus. -/
theorem name_personal_skip_retrieval (sqrt : ℚ → ℚ) (embed : Str → List ℚ)
    (pers : Option UserProfile) (allLogs : List ErrorLog)
    (e₁ e₂ : List EmbeddedLog) (question : Str)
    (h : (askQuestion sqrt embed pers allLogs e₁ question).intent = .NameLookup ∨
      (askQuestion sqrt embed pers allLogs e₁ question).intent = .PersonalProfile) :
    (askQuestion sqrt embed pers allLogs e₁ question).embedCalls = 0 ∧
      (askQuestion sqrt embed pers allLogs e₁ question).ranked = false ∧
      (askQuestion sqrt embed pers allLogs e₁ question).systemPrompt = none ∧
      (askQuestion sqrt embed pers allLogs e₁ question).directResponse =
        (askQuestion sqrt embed pers allLogs e₂ question).directResponse ∧
      ((askQuestion sqrt embed pers allLogs e₁ question).intent = .PersonalProfile →
        ∃ p, pers = some p ∧
          (askQuestion sqrt embed pers allLogs e₁ question).directResponse =
            some (personalProfileResponse p allLogs)) := by
  by_cases hn : isNameQuery (normalize question) = true
  · rw [askQuestion_eq_name sqrt embed pers allLogs e₁ question hn,
      askQuestion_eq_name sqrt embed pers allLogs e₂ question hn]
    refine ⟨rfl, rfl, rfl, rfl, ?_⟩
    intro hpp
    simp at hpp
  · have hn' : isNameQuery (normalize question) = false := by
      cases hni : isNameQuery (normalize question)
      · rfl
      · exact absurd hni hn
    cases pers with
    | none =>
      exfalso
      rw [askQuestion_eq_retrieval sqrt embed none allLogs e₁ question hn'
        (fun p hp => by cases hp)] at h
      rcases retrievalResult_intent sqrt embed none allLogs e₁ question with hi | hi <;>
        rcases h with h | h <;> rw [hi] at h <;> cases h
    | some p =>
      by_cases hp : isPersonalQuery question = true
      · rw [askQuestion_eq_personal sqrt embed p allLogs e₁ question hn' hp,
          askQuestion_eq_personal sqrt embed p allLogs e₂ question hn' hp]
        exact ⟨rfl, rfl, rfl, rfl, fun _ => ⟨p, rfl, rfl⟩⟩
      · exfalso
        have hp' : isPersonalQuery question = false := by
          cases hpi : isPersonalQuery question
          · rfl
          · exact absurd hpi hp
        rw [askQuestion_eq_retrieval sqrt embed (some p) allLogs e₁ question hn'
          (fun _ _ => hp')] at h
        rcases retrievalResult_intent sqrt embed (some p) allLogs e₁ question with hi | hi <;>
          rcases h with h | h <;> rw [hi] at h <;> cases h

/-- C4 witness: the theorem applied at the concrete personal question
    "кто я" with the sample profile. -/
theorem name_personal_skip_retrieval_witness :
    (askQuestion id (fun _ => []) (some sampleProfile) [] []
        (S "кто я")).embedCalls = 0 ∧
      (askQuestion id (fun _ => []) (some sampleProfile) [] []
          (S "кто я")).ranked = false ∧
      (askQuestion id (fun _ => []) (some sampleProfile) [] []
          (S "кто я")).systemPrompt = none ∧
      (askQuestion id (fun _ => []) (some sampleProfile) [] []
          (S "кто я")).directResponse =
        (askQuestion id (fun _ => []) (some sampleProfile) [] [sampleEmbedded]
            (S "кто я")).directResponse ∧
      ((askQuestion id (fun _ => []) (some sampleProfile) [] []
          (S "кто я")).intent = .PersonalProfile →
        ∃ p, (some sampleProfile : Option UserProfile) = some p ∧
          (askQuestion id (fun _ => []) (some sampleProfile) [] []
              (S "кто я")).directResponse =
            some (personalProfileResponse p [])) :=
  name_personal_skip_retrieval id (fun _ => []) (some sampleProfile) [] []
    [sampleEmbedded] (S "кто я")
    (Or.inr (by
      rw [askQuestion_eq_personal id (fun _ => []) sampleProfile [] []
        (S "кто я") (by decide) (by decide)]))

/-- C5: when a question is classified Statistical, the assembled system
    prompt is exactly the statistical prompt built from the base prompt and
    the freshly computed aggregate statistics — the statistics block appears
    verbatim inside it — and it is independent of the vector index and thus
    of the retrieved records (which enter only the analytical prompt). -/
theorem statistical_prompt_isolated (sqrt : ℚ → ℚ) (embed : Str → List ℚ)
    (pers : Option UserProfile) (allLogs : List ErrorLog)
    (e₁ e₂ : List EmbeddedLog) (question : Str)
    (h : (askQuestion sqrt embed pers allLogs e₁ question).intent = .Statistical) :
    (askQuestion sqrt embed pers allLogs e₁ question).systemPrompt =
        some (statisticalSystemPrompt pers allLogs) ∧
      (∃ pre post, statisticalSystemPrompt pers allLogs =
          pre ++ (getStatistics allLogs ++ post)) ∧
      (askQuestion sqrt embed pers allLogs e₂ question).systemPrompt =
        (askQuestion sqrt embed pers allLogs e₁ question).systemPrompt := by
  obtain ⟨hn, hp, hs⟩ :=
    intent_statistical_conditions sqrt embed pers allLogs e₁ question h
  rw [askQuestion_eq_retrieval sqrt embed pers allLogs e₁ question hn hp,
    askQuestion_eq_retrieval sqrt embed pers allLogs e₂ question hn hp,
    retrievalResult_stat sqrt embed pers allLogs e₁ question hs,
    retrievalResult_stat sqrt embed pers allLogs e₂ question hs]
  exact ⟨rfl, statisticalSystemPrompt_contains_stats pers allLogs, rfl⟩

/-- C5 witness: the theorem applied at the concrete statistical question
    "сколько всего ошибок" over the one-record sample corpus. -/
theorem statistical_prompt_isolated_witness :
    (askQuestion id (fun _ => []) none [sampleLog] []
        (S "сколько всего ошибок")).systemPrompt =
        some (statisticalSystemPrompt none [sampleLog]) ∧
      (∃ pre post, statisticalSystemPrompt none [sampleLog] =
          pre ++ (getStatistics [sampleLog] ++ post)) ∧
      (askQuestion id (fun _ => []) none [sampleLog] [sampleEmbedded]
          (S "сколько всего ошибок")).systemPrompt =
        (askQuestion id (fun _ => []) none [sampleLog] []
            (S "сколько всего ошибок")).systemPrompt :=
  statistical_prompt_isolated id (fun _ => []) none [sampleLog] [] [sampleEmbedded]
    (S "сколько всего ошибок")
    (by
      rw [askQuestion_eq_retrieval id (fun _ => []) none [sampleLog] []
          (S "сколько всего ошибок") (by decide) (fun p hp => by cases hp),
        retrievalResult_stat id (fun _ => []) none [sampleLog] []
          (S "сколько всего ошибок") (by decide)])

end QwenAnalyzer
